import Mathlib

/-!
Verification of the key-scale attenuation decode function
(`opl_key_scale_atten` in src/devices/sound/qsound.h) and of the
spec-described envelope generator of the ymfm FM core.

The C++ source is embedded shallowly: `uint32_t` values are naturals
reduced mod 2 ^ 32 where the C++ arithmetic wraps, the `int32_t`
conversion is made explicit by `toInt32`, and the fixed-size table read
is optional indexing so that an out-of-bounds access is visible as
`none` instead of undefined behavior.
-/

namespace Qsound

/-- The 16-entry lookup table `fnum_to_atten` from the source: maximal
attenuation values for block 7, indexed by the top 4 bits of FNUM,
in 0.75 dB units. -/
def fnum_to_atten : List Nat :=
  [0, 24, 32, 37, 40, 43, 45, 47, 48, 50, 51, 52, 53, 54, 55, 56]

/-- Reinterpretation of a natural number as a signed two-complement
32-bit value, as performed by the assignment to `int32_t result` in the
source. -/
def toInt32 (n : Nat) : Int :=
  let m := n % 4294967296
  if m < 2147483648 then (m : Int) else (m : Int) - 4294967296

/-- Shallow embedding of `opl_key_scale_atten` (qsound.h lines 464-472):
the table is read at `fnum_4msb` (optional indexing; the C++ read is out
of bounds past index 15), then `8 * (block ^ 7)` is subtracted in
wrapping 32-bit arithmetic, reinterpreted as `int32_t`, clamped below
at 0 by `std::max`, and returned as an unsigned value. -/
def opl_key_scale_atten (block fnum_4msb : Nat) : Option Nat :=
  (fnum_to_atten[fnum_4msb]?).map fun t =>
    (max 0 (toInt32 (t + 4294967296 -
      (8 * ((block % 4294967296) ^^^ 7)) % 4294967296))).toNat

/-- The formulation of key-scale attenuation written in the spec
(section 4.6): look the table up at the top 4 FNUM bits and, for blocks
below 7, subtract `8 * (7 - block)`, clamping the result at a minimum
of 0. Exact integer arithmetic, no wrapping. -/
def key_scale_atten_spec (block fnum_4msb : Nat) : Nat :=
  (max 0 ((fnum_to_atten.getD fnum_4msb 0 : Int)
    - 8 * (7 - (block : Int)))).toNat

/-- The intermediate signed value of line 470 of the source, with the
block term written as the code writes it: `8 * (block XOR 7)`. -/
def atten_formula_xor (block fnum_4msb : Nat) : Int :=
  (fnum_to_atten.getD fnum_4msb 0 : Int) - 8 * ((block ^^^ 7 : Nat) : Int)

/-- The intermediate signed value with the block term written as the
spec writes it: `8 * (7 - block)`. -/
def atten_formula_sub (block fnum_4msb : Nat) : Int :=
  (fnum_to_atten.getD fnum_4msb 0 : Int) - 8 * (7 - (block : Int))

/-- Claim C1: for every block in 0..7 and fnum_4msb in 0..15 the code
returns exactly the looked-up table value with `8 * (7 - block)`
subtracted and the result saturated at a minimum of 0, on all 128
input combinations. -/
theorem opl_key_scale_atten_matches_spec :
    ∀ block < 8, ∀ fnum < 16,
      opl_key_scale_atten block fnum = some (key_scale_atten_spec block fnum) := by
  decide

theorem opl_key_scale_atten_matches_spec_witness :
    opl_key_scale_atten 3 10 = some (key_scale_atten_spec 3 10) :=
  opl_key_scale_atten_matches_spec 3 (by decide) 10 (by decide)

/-- Claim C2: the four concrete values the spec lists in section 8:
atten(7,0) = 0, atten(7,15) = 56, atten(0,15) = 0 and atten(3,10) = 19. -/
theorem opl_key_scale_atten_spec_examples :
    opl_key_scale_atten 7 0 = some 0 ∧
    opl_key_scale_atten 7 15 = some 56 ∧
    opl_key_scale_atten 0 15 = some 0 ∧
    opl_key_scale_atten 3 10 = some 19 := by
  decide

/-- Claim C3: on the declared field widths (3-bit block, 4-bit
fnum_4msb) the index into the 16-entry table is always in bounds: the
optional read never takes the out-of-bounds branch. -/
theorem opl_key_scale_atten_index_in_bounds :
    ∀ block < 8, ∀ fnum < 16, (opl_key_scale_atten block fnum).isSome := by
  decide

theorem opl_key_scale_atten_index_in_bounds_witness :
    (opl_key_scale_atten 7 15).isSome :=
  opl_key_scale_atten_index_in_bounds 7 (by decide) 15 (by decide)

/-- Any bitwise combination of two values below `2 ^ n` stays below
`2 ^ n`; instance for XOR. -/
theorem xor_lt_two_pow {x y n : Nat} (hx : x < 2 ^ n) (hy : y < 2 ^ n) :
    x ^^^ y < 2 ^ n :=
  Nat.bitwise_lt hx hy

/-- XOR with 7 never takes a value from 8 or above to below 8: the high
bits are untouched. -/
theorem xor_seven_ge (block : Nat) (h : 8 ≤ block) : 8 ≤ block ^^^ 7 := by
  by_contra hlt
  push_neg at hlt
  have hb : block < 8 := by
    have h2 : (block ^^^ 7) ^^^ 7 < 2 ^ 3 :=
      xor_lt_two_pow (n := 3) (by omega) (by norm_num)
    simpa [Nat.xor_assoc] using h2
  omega

/-- Every entry of the table, addressed in bounds, is at most 56. -/
theorem fnum_to_atten_le (fnum : Nat) (h : fnum < 16) :
    ∃ t, fnum_to_atten[fnum]? = some t ∧ t ≤ 56 := by
  interval_cases fnum <;> exact ⟨_, rfl, by decide⟩

/-- Claim C4, counterexample: block 9 is not masked to its declared
3-bit width; the code XORs the full value with 7, so block 9 with
fnum_4msb 15 gives 0 while block 1 gives 8. -/
theorem opl_key_scale_atten_not_masked :
    opl_key_scale_atten 9 15 ≠ opl_key_scale_atten (9 % 8) (15 % 16) := by
  decide

/-- Claim C4, amended: out-of-range field values are never rejected,
but they are not masked to the declared widths either. For any block
from 8 up to `2 ^ 28` (with fnum_4msb in range) the XOR keeps the high
bits, the subtracted term exceeds every table entry, and the clamp
forces the result to 0; an fnum_4msb of 16 or more reads past the
16-entry table (none in this embedding, undefined behavior in C++). -/
theorem opl_key_scale_atten_out_of_range (block fnum : Nat) :
    (8 ≤ block → block < 2 ^ 28 → fnum < 16 →
      opl_key_scale_atten block fnum = some 0) ∧
    (16 ≤ fnum → opl_key_scale_atten block fnum = none) := by
  constructor
  · intro hb hb2 hf
    obtain ⟨t, ht, htle⟩ := fnum_to_atten_le fnum hf
    have hx8 : 8 ≤ block ^^^ 7 := xor_seven_ge block hb
    have hxlt : block ^^^ 7 < 2 ^ 28 :=
      xor_lt_two_pow (n := 28) hb2 (by norm_num)
    have hmod : block % 4294967296 = block := Nat.mod_eq_of_lt (by omega)
    have hs : (8 * (block ^^^ 7)) % 4294967296 = 8 * (block ^^^ 7) :=
      Nat.mod_eq_of_lt (by omega)
    rw [opl_key_scale_atten, ht, Option.map_some', hmod, hs, toInt32]
    have hdlt : (t + 4294967296 - 8 * (block ^^^ 7)) % 4294967296 =
        t + 4294967296 - 8 * (block ^^^ 7) :=
      Nat.mod_eq_of_lt (by omega)
    rw [hdlt, if_neg (by omega)]
    have hneg : ((t + 4294967296 - 8 * (block ^^^ 7) : Nat) : Int)
        - 4294967296 ≤ 0 := by omega
    rw [max_eq_left hneg]
    rfl
  · intro hf
    have hnone : fnum_to_atten[fnum]? = none := by
      rw [List.getElem?_eq_none_iff]
      simpa [fnum_to_atten] using hf
    rw [opl_key_scale_atten, hnone]
    rfl

theorem opl_key_scale_atten_out_of_range_witness :
    opl_key_scale_atten 9 0 = some 0 ∧ opl_key_scale_atten 0 16 = none :=
  ⟨(opl_key_scale_atten_out_of_range 9 0).1 (by decide) (by norm_num)
      (by decide),
   (opl_key_scale_atten_out_of_range 0 16).2 (by decide)⟩

/-- Claim C5: on the declared domain the XOR formulation of the code
and the subtraction formulation of the spec give the same intermediate
signed value, so the two embeddings of the attenuation formula are
extensionally equal there. -/
theorem atten_formula_xor_eq_sub :
    ∀ block < 8, ∀ fnum < 16,
      atten_formula_xor block fnum = atten_formula_sub block fnum := by
  decide

theorem atten_formula_xor_eq_sub_witness :
    atten_formula_xor 3 10 = atten_formula_sub 3 10 :=
  atten_formula_xor_eq_sub 3 (by decide) 10 (by decide)

/-- Claim C7: the decode is monotone in both arguments on the declared
domain: non-decreasing in fnum_4msb at fixed block, and non-decreasing
in block at fixed fnum_4msb. -/
theorem opl_key_scale_atten_monotone :
    (∀ block < 8, ∀ f1 < 16, ∀ f2 < 16, f1 ≤ f2 →
      (opl_key_scale_atten block f1).getD 0 ≤
        (opl_key_scale_atten block f2).getD 0) ∧
    (∀ fnum < 16, ∀ b1 < 8, ∀ b2 < 8, b1 ≤ b2 →
      (opl_key_scale_atten b1 fnum).getD 0 ≤
        (opl_key_scale_atten b2 fnum).getD 0) := by
  decide

theorem opl_key_scale_atten_monotone_witness :
    (opl_key_scale_atten 3 9).getD 0 ≤ (opl_key_scale_atten 3 10).getD 0 ∧
    (opl_key_scale_atten 2 10).getD 0 ≤ (opl_key_scale_atten 3 10).getD 0 :=
  ⟨opl_key_scale_atten_monotone.1 3 (by decide) 9 (by decide) 10 (by decide)
      (by decide),
   opl_key_scale_atten_monotone.2 10 (by decide) 2 (by decide) 3 (by decide)
      (by decide)⟩

/-- Claim C8: on the declared domain the result lies in [0, 56], the
signed intermediate of line 470 fits comfortably in `int32_t`, and the
clamped result converts to the unsigned return type without wrapping:
the wrapping 32-bit computation agrees with exact integer arithmetic. -/
theorem opl_key_scale_atten_range :
    ∀ block < 8, ∀ fnum < 16,
      (opl_key_scale_atten block fnum).getD 0 ≤ 56 ∧
      -2147483648 ≤ atten_formula_xor block fnum ∧
      atten_formula_xor block fnum < 2147483648 ∧
      opl_key_scale_atten block fnum =
        some (max 0 (atten_formula_xor block fnum)).toNat := by
  decide

theorem opl_key_scale_atten_range_witness :
    (opl_key_scale_atten 0 0).getD 0 ≤ 56 ∧
    -2147483648 ≤ atten_formula_xor 0 0 ∧
    atten_formula_xor 0 0 < 2147483648 ∧
    opl_key_scale_atten 0 0 = some (max 0 (atten_formula_xor 0 0)).toNat :=
  opl_key_scale_atten_range 0 (by decide) 0 (by decide)

/-- Claim C9: whenever the clamp is inactive, stepping the block up by
one octave lowers the attenuation term by exactly 8 units of 0.75 dB,
so the result grows by exactly 8 (6 dB per octave). -/
theorem opl_key_scale_atten_octave_step :
    ∀ block < 7, ∀ fnum < 16,
      8 * (7 - block) ≤ fnum_to_atten.getD fnum 0 →
      (opl_key_scale_atten (block + 1) fnum).getD 0 =
        (opl_key_scale_atten block fnum).getD 0 + 8 := by
  decide

theorem opl_key_scale_atten_octave_step_witness :
    (opl_key_scale_atten 4 10).getD 0 = (opl_key_scale_atten 3 10).getD 0 + 8 :=
  opl_key_scale_atten_octave_step 3 (by decide) 10 (by decide) (by decide)

/-- Modelled from the spec: the envelope generator phases of section
4.3 (ATTACK, DECAY, SUSTAIN, RELEASE, OFF, plus the DEPRESS pre-stage
of the families with the initial-decay quirk). -/
inductive EnvPhase where
  | DEPRESS
  | ATTACK
  | DECAY
  | SUSTAIN
  | RELEASE
  | OFF
deriving DecidableEq, Repr

/-- Modelled from the spec: per-operator envelope generator state, a
phase and the current 10-bit attenuation (0 = loudest, 1023 = silence). -/
structure EnvState where
  phase : EnvPhase
  atten : Nat
deriving DecidableEq, Repr

/-- Modelled from the spec: one envelope generator tick (section 4.3;
the generator code itself is not part of this excerpt). Attenuation is
advanced by the rate-derived increment `inc`: DEPRESS, DECAY and
RELEASE move it toward silence, saturating at 1023; ATTACK moves it
toward 0; DECAY hands over to SUSTAIN once the attenuation reaches the
sustain-level threshold; SUSTAIN holds and OFF is inert. -/
def env_tick (sustain_threshold inc : Nat) (s : EnvState) : EnvState :=
  match s.phase with
  | EnvPhase.DEPRESS =>
      let a := min 1023 (s.atten + inc)
      { phase := if a = 1023 then EnvPhase.ATTACK else EnvPhase.DEPRESS,
        atten := a }
  | EnvPhase.ATTACK =>
      let a := s.atten - inc
      { phase := if a = 0 then EnvPhase.DECAY else EnvPhase.ATTACK,
        atten := a }
  | EnvPhase.DECAY =>
      let a := min 1023 (s.atten + inc)
      { phase := if sustain_threshold ≤ a then EnvPhase.SUSTAIN
                 else EnvPhase.DECAY,
        atten := a }
  | EnvPhase.SUSTAIN => s
  | EnvPhase.RELEASE =>
      { s with atten := min 1023 (s.atten + inc) }
  | EnvPhase.OFF => s

/-- Modelled from the spec: an envelope generator run, one tick per
element of the increment sequence. -/
def env_run (sustain_threshold : Nat) (incs : List Nat) (s : EnvState) :
    EnvState :=
  incs.foldl (fun st i => env_tick sustain_threshold i st) s

/-- A single tick keeps the attenuation within the 10-bit range. -/
theorem env_tick_atten_le (sustain_threshold inc : Nat) (s : EnvState)
    (h : s.atten ≤ 1023) :
    (env_tick sustain_threshold inc s).atten ≤ 1023 := by
  rcases s with ⟨phase, atten⟩
  have h2 : atten ≤ 1023 := h
  cases phase <;> dsimp only [env_tick] <;> omega

/-- Claim C6: along every tick sequence the attenuation stays within
[0, 1023]; a tick taken in DECAY or RELEASE never decreases the
attenuation, and a tick taken in ATTACK never increases it. -/
theorem env_attenuation_monotone_bounded (sustain_threshold : Nat)
    (s : EnvState) (h : s.atten ≤ 1023) :
    (∀ incs : List Nat,
      (env_run sustain_threshold incs s).atten ≤ 1023) ∧
    (∀ inc : Nat,
      s.phase = EnvPhase.DECAY ∨ s.phase = EnvPhase.RELEASE →
      s.atten ≤ (env_tick sustain_threshold inc s).atten) ∧
    (∀ inc : Nat, s.phase = EnvPhase.ATTACK →
      (env_tick sustain_threshold inc s).atten ≤ s.atten) := by
  refine ⟨?_, ?_, ?_⟩
  · intro incs
    induction incs generalizing s with
    | nil => exact h
    | cons i rest ih =>
        rw [env_run, List.foldl_cons]
        exact ih _ (env_tick_atten_le sustain_threshold i s h)
  · rintro inc (hp | hp) <;> rcases s with ⟨phase, atten⟩ <;>
      simp_all [env_tick]
  · intro inc hp
    rcases s with ⟨phase, atten⟩
    simp_all [env_tick]

theorem env_attenuation_monotone_bounded_witness :
    (env_run 512 [7, 2000, 3] ⟨EnvPhase.DECAY, 100⟩).atten ≤ 1023 ∧
    100 ≤ (env_tick 512 7 ⟨EnvPhase.DECAY, 100⟩).atten ∧
    (env_tick 512 7 ⟨EnvPhase.ATTACK, 100⟩).atten ≤ 100 :=
  ⟨(env_attenuation_monotone_bounded 512 ⟨EnvPhase.DECAY, 100⟩
      (by decide)).1 [7, 2000, 3],
   (env_attenuation_monotone_bounded 512 ⟨EnvPhase.DECAY, 100⟩
      (by decide)).2.1 7 (Or.inl rfl),
   (env_attenuation_monotone_bounded 512 ⟨EnvPhase.ATTACK, 100⟩
      (by decide)).2.2 7 rfl⟩

end Qsound
